import Mathlib

/-!
Verification development for the document-analysis workflow component
(`src/frontend-updated/src/pages/Analyze.tsx`).

The component is a single-page workflow over a remote document-processing
service.  We shallowly embed its state, its cache of generated artifacts,
and its event handlers as pure Lean functions.  Remote calls are modelled by
an explicit list of issued `RemoteCall` values; remote responses are passed
in as `Except`-valued parameters; toast notifications are collected in a
`Toast` list.  JavaScript truthiness on strings, optional ids, and object
lookups is modelled explicitly (`strTruthy`, `optNatTruthy`, `truthyLookup`).
-/

/-- Truthiness of a JavaScript string: `""` is falsy, all others truthy. -/
def strTruthy (s : String) : Bool := !s.data.isEmpty

/-- Truthiness of an optional string (for example `docId` from `useParams`):
`undefined` and `""` are falsy. -/
def optStrTruthy : Option String → Bool
  | some s => strTruthy s
  | none => false

/-- Truthiness of an optional numeric id (`topic.id`): `undefined` and `0` are
falsy. -/
def optNatTruthy : Option Nat → Bool
  | some n => n != 0
  | none => false

/-- Model of JavaScript `String.prototype.trim` for the whitespace characters
covered by `Char.isWhitespace`: drop whitespace from both ends. -/
def trimWs (s : String) : String :=
  String.mk (((s.data.dropWhile Char.isWhitespace).reverse.dropWhile Char.isWhitespace).reverse)

/-- Scope payload (`ScopeData` in the source). -/
structure ScopeData where
  scope_text : String
  source_pages : List Nat
  is_confirmed : Bool
  deriving DecidableEq

/-- Topic record (`Topic` in the source).  `text` is the de-facto identity key. -/
structure Topic where
  id : Option Nat := none
  number : Option String := none
  text : String
  level : Option Nat := none
  status : Option String := none
  page : Option Nat := none
  is_confirmed : Option Bool := none
  deriving DecidableEq

/-- One chat turn (`ChatMessage` in the source). -/
structure ChatMessage where
  role : String
  content : String
  deriving DecidableEq

/-- Remote operations of the gateway (`apiService` calls in the source). -/
inductive RemoteCall where
  | getStatus (docId : String)
  | extractScope (docId : String) (useCache : Bool)
  | confirmScope (docId : String) (pages : List Nat)
  | generateTopics (docId : String) (template : String)
  | generateContent (docId : String) (template : String) (topicText : String)
  | chat (docId : String) (template : String) (message : String) (history : List ChatMessage)
  | saveContent (docId : String) (topicId : Nat) (content : String)
  deriving DecidableEq

/-- Toast notification kinds of the `sonner` library as used in the source. -/
inductive Toast where
  | success (msg : String)
  | error (msg : String)
  | info (msg : String)
  deriving DecidableEq

/-- Whether a toast is an error toast. -/
def isErrorToast : Toast → Bool
  | Toast.error _ => true
  | _ => false

/-- Association-list lookup for a string-keyed JavaScript object. -/
def lookupStr (m : List (String × String)) (k : String) : Option String :=
  (m.find? (fun p => p.1 == k)).map (fun p => p.2)

/-- JavaScript object update `{...prev, [k]: v}`: replace the first binding of
`k` in place, or append a new binding. -/
def setStr : List (String × String) → String → String → List (String × String)
  | [], k, v => [(k, v)]
  | p :: rest, k, v => if p.1 == k then (k, v) :: rest else p :: setStr rest k v

/-- Truthy lookup, modelling `if (obj[k])`: a missing key or an empty-string
value both count as absent. -/
def truthyLookup (m : List (String × String)) (k : String) : Option String :=
  match lookupStr m k with
  | some s => if strTruthy s then some s else none
  | none => none

/-- Lookup in the boolean loading map, defaulting to `false` for missing keys
(JavaScript `contentLoadingState[k]` falsiness). -/
def isLoading (m : List (String × Bool)) (k : String) : Bool :=
  ((m.find? (fun p => p.1 == k)).map (fun p => p.2)).getD false

/-- Update of the boolean loading map, `{...prev, [k]: b}` semantics. -/
def setFlag : List (String × Bool) → String → Bool → List (String × Bool)
  | [], k, b => [(k, b)]
  | p :: rest, k, b => if p.1 == k then (k, b) :: rest else p :: setFlag rest k b

/-- Boolean equality of the triple cache key `(docId, template, topicKey)`. -/
def tripleEq (a b : String × String × String) : Bool :=
  a.1 == b.1 && a.2.1 == b.2.1 && a.2.2 == b.2.2

/-- Update of a triple-keyed association list (react-query `setQueryData`). -/
def setTriple : List ((String × String × String) × String) → (String × String × String) → String →
    List ((String × String × String) × String)
  | [], k, v => [(k, v)]
  | p :: rest, k, v => if tripleEq p.1 k then (k, v) :: rest else p :: setTriple rest k v

/-- The react-query cache, restricted to the query keys used by the component:
`["documentScope", docId]`, `["generatedTopics", docId, template]`,
`["generatedContent", docId, template, topicKey]` and
`["chatHistory", docId, template]`. -/
structure QueryCache where
  documentScope : List (String × ScopeData) := []
  generatedTopics : List ((String × String) × List Topic) := []
  generatedContent : List ((String × String × String) × String) := []
  chatHistory : List ((String × String) × List ChatMessage) := []
  deriving DecidableEq

/-- `queryClient.getQueryData(["documentScope", docId])`. -/
def getCachedScope (c : QueryCache) (d : String) : Option ScopeData :=
  (c.documentScope.find? (fun p => p.1 == d)).map (fun p => p.2)

/-- `queryClient.getQueryData(["generatedTopics", docId, template])`. -/
def getCachedTopics (c : QueryCache) (d tpl : String) : Option (List Topic) :=
  (c.generatedTopics.find? (fun p => p.1.1 == d && p.1.2 == tpl)).map (fun p => p.2)

/-- `queryClient.getQueryData(["generatedContent", docId, template, key])`. -/
def getCachedContent (c : QueryCache) (d tpl key : String) : Option String :=
  (c.generatedContent.find? (fun p => tripleEq p.1 (d, tpl, key))).map (fun p => p.2)

/-- Truthy read of cached content, modelling `if (content)` on the result of
`getQueryData` at line 269 of the source. -/
def truthyCachedContent (c : QueryCache) (d tpl key : String) : Option String :=
  match getCachedContent c d tpl key with
  | some s => if strTruthy s then some s else none
  | none => none

/-- `queryClient.setQueryData(["generatedContent", docId, template, key], v)`. -/
def setCachedContent (c : QueryCache) (d tpl key v : String) : QueryCache :=
  { c with generatedContent := setTriple c.generatedContent (d, tpl, key) v }

/-- `queryClient.setQueryData(["chatHistory", docId, template], h)`. -/
def setCachedChat (c : QueryCache) (d tpl : String) (h : List ChatMessage) : QueryCache :=
  { c with chatHistory :=
      if c.chatHistory.any (fun p => p.1.1 == d && p.1.2 == tpl) then
        c.chatHistory.map (fun p => if p.1.1 == d && p.1.2 == tpl then ((d, tpl), h) else p)
      else c.chatHistory ++ [((d, tpl), h)] }

/-- Local state of the `Analyze` component (`useState` hooks and the
`isBatchGeneratingRef` ref). -/
structure AnalyzeState where
  selectedTemplate : String := ""
  analysisStep : Nat := 0
  scopeData : Option ScopeData := none
  generatedTopics : List Topic := []
  generatedContent : List (String × String) := []
  contentLoadingState : List (String × Bool) := []
  chatHistory : List ChatMessage := []
  currentChatMessage : String := ""
  isBatchGenerating : Bool := false
  isModalOpen : Bool := false
  currentTopicForModal : Option Topic := none
  modalContent : String := ""
  isGeneratingAll : Bool := false
  deriving DecidableEq

/-- Truthiness of `scopeData?.is_confirmed` (optional chaining: a missing
scope is falsy). -/
def scopeConfirmedB : Option ScopeData → Bool
  | some sd => sd.is_confirmed
  | none => false

/-- Result record for one handler or mutation run: the new component state,
the new query cache, the remote calls issued (in order) and the toasts shown. -/
structure StepResult where
  state : AnalyzeState
  cache : QueryCache
  calls : List RemoteCall
  toasts : List Toast
  deriving DecidableEq

/-- The `refetchInterval` callback of the `documentStatus` query (source lines
78-82): stop on a terminal status, otherwise re-poll after 5000 ms. -/
def refetchInterval (currentStatus : Option String) : Option Nat :=
  match currentStatus with
  | some s => if s == "processed" || s == "error" then none else some 5000
  | none => some 5000

/-- Observable actions of the status poller. -/
inductive PollAction where
  | request
  | wait (ms : Nat)
  deriving DecidableEq

/-- Trace of the status poller driven by `refetchInterval`: given the sequence
of statuses the service would report to successive requests, a request is
issued immediately, and after each response the `refetchInterval` policy
either stops or waits and repeats. -/
def pollActions : List String → List PollAction
  | [] => []
  | s :: rest =>
    PollAction.request ::
      (match refetchInterval (some s) with
       | none => []
       | some d => PollAction.wait d :: pollActions rest)

/-- References to cache entries consulted by the resume logic. -/
inductive CacheRef where
  | documentScope (d : String)
  | generatedTopics (d tpl : String)
  | generatedContent (d tpl key : String)
  deriving DecidableEq

/-- Observable events of the re-entry sequence: remote calls issued and cache
reads performed, in order. -/
inductive WorkflowEvent where
  | remoteCall (c : RemoteCall)
  | cacheCheck (r : CacheRef)
  deriving DecidableEq

/-- Projection of the remote calls out of a workflow event trace. -/
def remoteCallsOf (tr : List WorkflowEvent) : List RemoteCall :=
  tr.filterMap (fun e => match e with
    | WorkflowEvent.remoteCall c => some c
    | WorkflowEvent.cacheCheck _ => none)

/-- Holds exactly when every cache check in the trace happens before the first
remote call, that is, no cache check occurs at or after a remote call.  This is
the ordering demanded by the resumption rule of the specification. -/
def cacheChecksPrecedeRequests : List WorkflowEvent → Bool
  | [] => true
  | WorkflowEvent.remoteCall _ :: rest =>
      rest.all (fun e => match e with
        | WorkflowEvent.cacheCheck _ => false
        | WorkflowEvent.remoteCall _ => true)
  | WorkflowEvent.cacheCheck _ :: rest => cacheChecksPrecedeRequests rest

/-- The `documentStatus` effect (source lines 85-104), with the cache reads it
performs recorded as events.  On a `processed` status the cached scope is
consulted: a confirmed cached scope advances to step 3, an unconfirmed cached
scope is loaded at step 2, and an absent cached scope leaves step 2 without
touching `scopeData`. -/
def onDocumentStatusEv (d : String) (cache : QueryCache) (status : String)
    (st : AnalyzeState) : AnalyzeState × List WorkflowEvent :=
  if status == "processed" then
    let ev := [WorkflowEvent.cacheCheck (CacheRef.documentScope d)]
    match getCachedScope cache d with
    | some sc =>
      if sc.is_confirmed then
        ({ st with scopeData := some sc, analysisStep := 3 }, ev)
      else
        ({ st with scopeData := some sc, analysisStep := 2 }, ev)
    | none => ({ st with analysisStep := 2 }, ev)
  else if status == "processing" || status == "uploading" then
    ({ st with analysisStep := 1 }, [])
  else
    ({ st with analysisStep := 0 }, [])

/-- The `docId` effect (source lines 245-258): reset the per-document local
state.  The accompanying `invalidateQueries` on the active `documentStatus`
query triggers a status refetch, recorded by the caller as a remote call. -/
def resetForDocEffect (st : AnalyzeState) : AnalyzeState :=
  { st with analysisStep := 0, scopeData := none, generatedTopics := [],
            generatedContent := [], chatHistory := [] }

/-- The cache-hydration effect (source lines 260-284), with its cache reads
recorded as events.  The first block restores cached topics and content once
the workflow sits at step 3 with a confirmed scope and a selected template;
the second block clears topics and content when no template is selected. -/
def hydrateFromCache (d : String) (cache : QueryCache) (st : AnalyzeState) :
    AnalyzeState × List WorkflowEvent :=
  let tpl := st.selectedTemplate
  let r1 :=
    if strTruthy d && strTruthy tpl && (st.analysisStep == 3) && scopeConfirmedB st.scopeData then
      let evT := [WorkflowEvent.cacheCheck (CacheRef.generatedTopics d tpl)]
      match getCachedTopics cache d tpl with
      | some cachedTopics =>
        let evC := cachedTopics.map
          (fun t => WorkflowEvent.cacheCheck (CacheRef.generatedContent d tpl t.text))
        let cc := cachedTopics.foldl
          (fun m t =>
            match truthyCachedContent cache d tpl t.text with
            | some c => setStr m t.text c
            | none => m) []
        ({ st with generatedTopics := cachedTopics, analysisStep := 4, generatedContent := cc },
         evT ++ evC)
      | none => (st, evT)
    else (st, [])
  if strTruthy tpl = false ∧ 3 ≤ st.analysisStep then
    let base := { r1.1 with generatedTopics := [], generatedContent := [] }
    match st.scopeData with
    | some sd =>
      if sd.is_confirmed then ({ base with analysisStep := 3 }, r1.2)
      else ({ base with analysisStep := 2 }, r1.2)
    | none => ({ base with analysisStep := 0 }, r1.2)
  else r1

/-- Re-entry of the workflow for document `d` (a fresh mount of the component
with the query cache retained).  Linearization of the effects: the `docId`
effect resets local state and its query invalidation issues the status
refetch; the reported status then drives the `documentStatus` effect and the
cache-hydration effect. -/
def resumeWorkflow (d : String) (cache : QueryCache) (status : String)
    (st0 : AnalyzeState) : AnalyzeState × List WorkflowEvent :=
  let st1 := resetForDocEffect st0
  let ev1 := [WorkflowEvent.remoteCall (RemoteCall.getStatus d)]
  let r2 := onDocumentStatusEv d cache status st1
  let r3 := hydrateFromCache d cache r2.1
  (r3.1, ev1 ++ r2.2 ++ r3.2)

/-- The `handleGenerateTopics` handler (source lines 322-332): returns the
remote calls it issues and the toasts it shows. -/
def handleGenerateTopics (d : Option String) (st : AnalyzeState) :
    List RemoteCall × List Toast :=
  if !(optStrTruthy d) || !(strTruthy st.selectedTemplate) then
    ([], [Toast.error "Cannot generate topics without a document and selected template."])
  else if !(scopeConfirmedB st.scopeData) then
    ([], [Toast.error "Scope must be confirmed before generating topics."])
  else
    ([RemoteCall.generateTopics (d.getD "") st.selectedTemplate], [])

/-- Successful response body of `generateContentAPI`: `{content, topic}`. -/
structure GenSuccess where
  topic : String
  content : String
  deriving DecidableEq

/-- Whether a generation result is a success. -/
def exceptIsOk {α : Type} : Except String α → Bool
  | Except.ok _ => true
  | Except.error _ => false

/-- The `onMutate` hook of `generateContentMutation` (source lines 180-182):
mark the topic key as in flight. -/
def generateContentOnMutate (topic : Topic) (st : AnalyzeState) : AnalyzeState :=
  { st with contentLoadingState := setFlag st.contentLoadingState topic.text true }

/-- Whether `generateContentMutation.isPending` holds.  `isPending` is true
exactly while a generation request is outstanding, which is exactly when some
topic key is marked in flight (`onMutate` sets the flag at request start and
`onSettled` clears it at completion). -/
def generateContentIsPending (st : AnalyzeState) : Bool :=
  st.contentLoadingState.any (fun p => p.2)

/-- Full lifecycle of one `generateContentMutation` run (source lines 178-203):
`onMutate` adds the in-flight entry, the remote call is issued, then
`onSuccess`/`onError` and finally `onSettled` (which clears the in-flight
entry in both cases) run.  On success the content is written to the local map
and to the query cache under the key `data.topic || topic.text`, and when no
batch is active the viewer modal opens. -/
def runGenerateContent (d tpl : String) (topic : Topic) (res : Except String GenSuccess)
    (st : AnalyzeState) (cache : QueryCache) : StepResult :=
  let st1 := generateContentOnMutate topic st
  let call := RemoteCall.generateContent d tpl topic.text
  match res with
  | Except.ok data =>
    let topicKey := if strTruthy data.topic then data.topic else topic.text
    let st2 := { st1 with generatedContent := setStr st1.generatedContent topicKey data.content }
    let st3 :=
      if !st2.isBatchGenerating then
        { st2 with currentTopicForModal := some topic, modalContent := data.content,
                   isModalOpen := true }
      else st2
    let cache1 := setCachedContent cache d tpl topicKey data.content
    let st4 := { st3 with contentLoadingState := setFlag st3.contentLoadingState topic.text false }
    { state := st4, cache := cache1, calls := [call],
      toasts := [Toast.success ("Content generated for: " ++ topicKey)] }
  | Except.error e =>
    let st2 := { st1 with contentLoadingState := setFlag st1.contentLoadingState topic.text false }
    { state := st2, cache := cache, calls := [call],
      toasts := [Toast.error ("Failed to generate content for " ++ topic.text ++ ": " ++ e)] }

/-- The `handleGenerateOrViewContent` handler (source lines 334-351): view
cached content, refuse while a generation is pending, otherwise start a
generation (whose lifecycle consumes the given remote result). -/
def handleGenerateOrViewContent (d : String) (res : Except String GenSuccess)
    (st : AnalyzeState) (cache : QueryCache) (topic : Topic) : StepResult :=
  match truthyLookup st.generatedContent topic.text with
  | some content =>
    { state := { st with currentTopicForModal := some topic, modalContent := content,
                         isModalOpen := true },
      cache := cache, calls := [], toasts := [] }
  | none =>
    if generateContentIsPending st && isLoading st.contentLoadingState topic.text then
      { state := st, cache := cache, calls := [],
        toasts := [Toast.info ("Still generating content for: " ++ topic.text)] }
    else if generateContentIsPending st && !(isLoading st.contentLoadingState topic.text) then
      { state := st, cache := cache, calls := [],
        toasts := [Toast.info "Please wait for the current content generation to complete."] }
    else
      runGenerateContent d st.selectedTemplate topic res st cache

/-- Eligibility test of the batch loop (source line 363), evaluated against the
render-time snapshots of the content map and the loading map that the loop
closure captured: skip a topic whose content is already cached (truthy) or
whose key is marked in flight. -/
def batchEligible (snapContent : List (String × String)) (snapLoading : List (String × Bool))
    (t : Topic) : Bool :=
  !(truthyLookup snapContent t.text).isSome && !(isLoading snapLoading t.text)

/-- Accumulator of the batch loop: evolving state and cache, the remote calls
issued so far, the `count` variable of the source (incremented only after a
successful `mutateAsync`), and the toasts shown so far. -/
structure BatchAcc where
  state : AnalyzeState
  cache : QueryCache
  calls : List RemoteCall
  count : Nat
  toasts : List Toast
  deriving DecidableEq

/-- The `for` loop of `handleGenerateAllContent` (source lines 362-371):
sequentially, for each topic that the snapshot shows as uncached and not in
flight, await one generation; a success increments `count`, a failure is
caught and surfaced as an additional batch error toast, and the loop
continues with the remaining topics either way. -/
def batchLoop (d tpl : String) (snapC : List (String × String))
    (snapL : List (String × Bool)) (results : String → Except String GenSuccess) :
    List Topic → BatchAcc → BatchAcc
  | [], acc => acc
  | topic :: rest, acc =>
    if batchEligible snapC snapL topic then
      let r := runGenerateContent d tpl topic (results topic.text) acc.state acc.cache
      let succ : Nat := match results topic.text with
        | Except.ok _ => 1
        | Except.error _ => 0
      let extra : List Toast := match results topic.text with
        | Except.ok _ => []
        | Except.error _ =>
          [Toast.error ("Failed to generate content for " ++ topic.text ++
            " during batch operation.")]
      batchLoop d tpl snapC snapL results rest
        { state := r.state, cache := r.cache, calls := acc.calls ++ r.calls,
          count := acc.count + succ, toasts := acc.toasts ++ r.toasts ++ extra }
    else
      batchLoop d tpl snapC snapL results rest acc

/-- The `handleGenerateAllContent` handler (source lines 353-376).  `results`
maps a topic text to the outcome its generation call would have. -/
def handleGenerateAllContent (d : String) (results : String → Except String GenSuccess)
    (st : AnalyzeState) (cache : QueryCache) : BatchAcc :=
  if st.generatedTopics.isEmpty then
    { state := st, cache := cache, calls := [], count := 0,
      toasts := [Toast.info "No topics available to generate content for."] }
  else
    let st0 := { st with isBatchGenerating := true, isGeneratingAll := true }
    let acc := batchLoop d st.selectedTemplate st.generatedContent st.contentLoadingState
      results st.generatedTopics
      { state := st0, cache := cache, calls := [], count := 0,
        toasts := [Toast.info "Starting batch content generation..."] }
    let st1 := { acc.state with isBatchGenerating := false, isGeneratingAll := false }
    let finalToast : List Toast :=
      if acc.count > 0 then
        [Toast.success ("Batch content generation completed for " ++ toString acc.count ++
          " topics.")]
      else
        [Toast.info "No new content was generated in batch (already exists or was generating)."]
    { acc with state := st1, toasts := acc.toasts ++ finalToast }

/-- The `onMutate` hook of `chatMutation` (source lines 231-234): append the
user turn optimistically and clear the input field. -/
def chatOnMutate (message : String) (st : AnalyzeState) : AnalyzeState :=
  { st with chatHistory := st.chatHistory ++ [{ role := "user", content := message }],
            currentChatMessage := "" }

/-- Full lifecycle of one `chatMutation` run (source lines 229-243).  The
remote call carries the history the handler captured; on success the
assistant turn is appended and the (stale closure) pre-send history is
written to the query cache; on error the just-appended user turn is removed
and the error is surfaced. -/
def runChatMutation (d tpl message : String) (history : List ChatMessage)
    (res : Except String String) (st : AnalyzeState) (cache : QueryCache) : StepResult :=
  let st1 := chatOnMutate message st
  let call := RemoteCall.chat d tpl message history
  match res with
  | Except.ok resp =>
    { state := { st1 with chatHistory := st1.chatHistory ++
        [{ role := "assistant", content := resp }] },
      cache := setCachedChat cache d tpl st.chatHistory,
      calls := [call], toasts := [] }
  | Except.error e =>
    { state := { st1 with chatHistory := st1.chatHistory.dropLast },
      cache := cache, calls := [call],
      toasts := [Toast.error ("Chat error: " ++ e)] }

/-- The `handleSendChatMessage` handler (source lines 420-428): a blank (after
trim) input is a no-op; a missing document or template is rejected; otherwise
the chat mutation runs with the prior transcript as context. -/
def handleSendChatMessage (d : Option String) (res : Except String String)
    (st : AnalyzeState) (cache : QueryCache) : StepResult :=
  if !(strTruthy (trimWs st.currentChatMessage)) then
    { state := st, cache := cache, calls := [], toasts := [] }
  else if !(optStrTruthy d) || !(strTruthy st.selectedTemplate) then
    { state := st, cache := cache, calls := [],
      toasts := [Toast.error "Document and template must be selected for chat."] }
  else
    let historyForAPI := st.chatHistory.map (fun m => { role := m.role, content := m.content })
    runChatMutation (d.getD "") st.selectedTemplate st.currentChatMessage historyForAPI res st cache

/-- One `saveContentMutation` run (source lines 205-227): the mutation function
rejects a missing document id or topic id with an error toast before any
remote call; otherwise the save call is issued, and on success the content
map is (re)written while on error only an error toast is shown — the content
map is left untouched. -/
def runSaveContent (d : Option String) (topic : Topic) (content : String)
    (res : Except String Unit) (st : AnalyzeState) :
    AnalyzeState × List RemoteCall × List Toast :=
  if !(optStrTruthy d) then
    (st, [], [Toast.error "Cannot save content: Document ID is missing."])
  else if !(optNatTruthy topic.id) then
    (st, [], [Toast.error "Cannot save content: Topic ID is missing."])
  else
    let call := RemoteCall.saveContent (d.getD "") (topic.id.getD 0) content
    match res with
    | Except.ok _ =>
      ({ st with generatedContent := setStr st.generatedContent topic.text content },
       [call],
       [Toast.success ("Content for \"" ++ topic.text ++ "\" saved successfully!")])
    | Except.error e =>
      (st, [call],
       [Toast.error ("Failed to save content for \"" ++ topic.text ++ "\": " ++ e)])

/-- The `handleSaveModalContent` handler (source lines 402-418): with an open
topic and a document id, commit the draft to the local content map and to the
query cache first; then, only when the topic has a truthy server id, run the
remote save; a missing id yields the informational cache-only toast instead. -/
def handleSaveModalContent (d : Option String) (res : Except String Unit)
    (st : AnalyzeState) (cache : QueryCache) : StepResult :=
  match st.currentTopicForModal with
  | some topic =>
    if optStrTruthy d then
      let dv := d.getD ""
      let st1 := { st with generatedContent := setStr st.generatedContent topic.text st.modalContent }
      let cache1 := setCachedContent cache dv st.selectedTemplate topic.text st.modalContent
      if optNatTruthy topic.id then
        let r := runSaveContent d topic st.modalContent res st1
        { state := { r.1 with isModalOpen := false }, cache := cache1,
          calls := r.2.1, toasts := r.2.2 }
      else
        { state := { st1 with isModalOpen := false }, cache := cache1, calls := [],
          toasts := [Toast.info "Content saved locally. Topic ID missing for backend save."] }
    else
      { state := st, cache := cache, calls := [],
        toasts := [Toast.error "Error saving content: No topic selected or document ID missing."] }
  | none =>
    { state := st, cache := cache, calls := [],
      toasts := [Toast.error "Error saving content: No topic selected or document ID missing."] }

/-- Expected transcript after a chat send, as a function of the remote result:
the user turn plus the assistant turn on success, the pre-send transcript on
failure (rollback). -/
def chatOutcomeHistory (pre : List ChatMessage) (message : String)
    (res : Except String String) : List ChatMessage :=
  match res with
  | Except.ok resp => pre ++ [{ role := "user", content := message },
                              { role := "assistant", content := resp }]
  | Except.error _ => pre

/-- Expected stage after a poll reports `processed`, as a function of the
cached scope: 3 when a confirmed scope is cached, 2 otherwise. -/
def expectedStepOnProcessed (cached : Option ScopeData) : Nat :=
  match cached with
  | some sc => if sc.is_confirmed then 3 else 2
  | none => 2

/-- Per-item toasts of one batch iteration, as a function of the item result:
the success toast, or the generation error toast followed by the batch catch
toast. -/
def batchItemToasts (results : String → Except String GenSuccess) (t : Topic) : List Toast :=
  match results t.text with
  | Except.ok data =>
    [Toast.success ("Content generated for: " ++
      (if strTruthy data.topic then data.topic else t.text))]
  | Except.error e =>
    [Toast.error ("Failed to generate content for " ++ t.text ++ ": " ++ e),
     Toast.error ("Failed to generate content for " ++ t.text ++ " during batch operation.")]

/-- Sample confirmed scope used by concrete instantiations. -/
def sampleScope : ScopeData :=
  { scope_text := "scope body", source_pages := [3, 4], is_confirmed := true }

/-- Sample topic with a server id. -/
def sampleTopicIntro : Topic := { id := some 1, text := "Intro" }

/-- Sample topic without a server id. -/
def sampleTopicScope : Topic := { text := "Scope" }

/-- Third sample topic. -/
def sampleTopicPlan : Topic := { id := some 3, text := "Plan" }

/-- Sample query cache holding a confirmed scope, a topic sequence and one
content entry for document `d1` and template `tplA`. -/
def sampleCache : QueryCache :=
  { documentScope := [("d1", sampleScope)],
    generatedTopics := [(("d1", "tplA"), [sampleTopicIntro, sampleTopicScope])],
    generatedContent := [(("d1", "tplA", "Intro"), "intro content")],
    chatHistory := [] }

/-- Sample component state with template `tplA` selected. -/
def sampleState : AnalyzeState := { selectedTemplate := "tplA" }

/-- Sample batch results oracle: generation fails for topic text `Intro` and
succeeds for every other topic text. -/
def sampleResults : String → Except String GenSuccess :=
  fun s => if s == "Intro" then Except.error "boom" else Except.ok { topic := s, content := "body" }

theorem lookupStr_setStr_self (m : List (String × String)) (k v : String) :
    lookupStr (setStr m k v) k = some v := by
  induction m with
  | nil => simp [setStr, lookupStr, List.find?]
  | cons p rest ih =>
    by_cases h : (p.1 == k) = true
    · simp [setStr, lookupStr, List.find?, h]
    · simp only [setStr, h, if_false, Bool.false_eq_true]
      simpa [lookupStr, List.find?, h] using ih

theorem isLoading_setFlag_self (m : List (String × Bool)) (k : String) (b : Bool) :
    isLoading (setFlag m k b) k = b := by
  induction m with
  | nil => simp [setFlag, isLoading, List.find?]
  | cons p rest ih =>
    by_cases h : (p.1 == k) = true
    · simp [setFlag, isLoading, List.find?, h]
    · simp only [setFlag, h, if_false, Bool.false_eq_true]
      simpa [isLoading, List.find?, h] using ih

theorem isLoading_true_any (m : List (String × Bool)) (k : String)
    (h : isLoading m k = true) : m.any (fun p => p.2) = true := by
  induction m with
  | nil => simp [isLoading] at h
  | cons p rest ih =>
    by_cases hk : (p.1 == k) = true
    · simp [isLoading, List.find?, hk] at h
      simp [List.any, h]
    · simp only [isLoading, List.find?, hk] at h
      simp only [List.any_cons, Bool.or_eq_true]
      exact Or.inr (ih h)

theorem tripleEq_self (a : String × String × String) : tripleEq a a = true := by
  simp [tripleEq]

theorem getCachedContent_setCachedContent_self (c : QueryCache) (d tpl key v : String) :
    getCachedContent (setCachedContent c d tpl key v) d tpl key = some v := by
  show getCachedContent { c with generatedContent := setTriple c.generatedContent (d, tpl, key) v }
      d tpl key = some v
  simp only [getCachedContent]
  induction c.generatedContent with
  | nil => simp [setTriple, List.find?, tripleEq_self]
  | cons p rest ih =>
    by_cases h : tripleEq p.1 (d, tpl, key) = true
    · simp [setTriple, List.find?, h, tripleEq_self]
    · simp only [setTriple, h, if_false, Bool.false_eq_true]
      simpa [List.find?, h] using ih

theorem length_filter_not_add {α : Type} (p : α → Bool) (l : List α) :
    (l.filter (fun a => !(p a))).length + (l.filter p).length = l.length := by
  induction l with
  | nil => rfl
  | cons a t ih =>
    by_cases h : p a = true <;> simp [List.filter, h] <;> omega

theorem remoteCallsOf_map_cacheCheck {α : Type} (f : α → CacheRef) (l : List α) :
    remoteCallsOf (l.map (fun x => WorkflowEvent.cacheCheck (f x))) = [] := by
  induction l with
  | nil => rfl
  | cons a t ih =>
    simp only [List.map_cons, remoteCallsOf, List.filterMap] at ih ⊢
    exact ih

theorem batchLoop_calls (d tpl : String) (snapC : List (String × String))
    (snapL : List (String × Bool)) (results : String → Except String GenSuccess)
    (ts : List Topic) : ∀ acc : BatchAcc,
    (batchLoop d tpl snapC snapL results ts acc).calls =
      acc.calls ++ (ts.filter (batchEligible snapC snapL)).map
        (fun t => RemoteCall.generateContent d tpl t.text) := by
  induction ts with
  | nil => intro acc; simp [batchLoop]
  | cons t rest ih =>
    intro acc
    by_cases h : batchEligible snapC snapL t = true
    · cases hres : results t.text with
      | ok data =>
        simp [batchLoop, h, hres, runGenerateContent, ih, List.filter]
      | error e =>
        simp [batchLoop, h, hres, runGenerateContent, ih, List.filter]
    · simp [batchLoop, h, ih, List.filter]

theorem batchLoop_count (d tpl : String) (snapC : List (String × String))
    (snapL : List (String × Bool)) (results : String → Except String GenSuccess)
    (ts : List Topic) : ∀ acc : BatchAcc,
    (batchLoop d tpl snapC snapL results ts acc).count =
      acc.count + ((ts.filter (batchEligible snapC snapL)).filter
        (fun t => exceptIsOk (results t.text))).length := by
  induction ts with
  | nil => intro acc; simp [batchLoop]
  | cons t rest ih =>
    intro acc
    by_cases h : batchEligible snapC snapL t = true
    · cases hres : results t.text with
      | ok data =>
        simp [batchLoop, h, hres, ih, List.filter, exceptIsOk]
        omega
      | error e =>
        simp [batchLoop, h, hres, ih, List.filter, exceptIsOk]
    · simp [batchLoop, h, ih, List.filter]

theorem batchLoop_toasts (d tpl : String) (snapC : List (String × String))
    (snapL : List (String × Bool)) (results : String → Except String GenSuccess)
    (ts : List Topic) : ∀ acc : BatchAcc,
    (batchLoop d tpl snapC snapL results ts acc).toasts =
      acc.toasts ++ (ts.filter (batchEligible snapC snapL)).flatMap (batchItemToasts results) := by
  induction ts with
  | nil => intro acc; simp [batchLoop]
  | cons t rest ih =>
    intro acc
    by_cases h : batchEligible snapC snapL t = true
    · cases hres : results t.text with
      | ok data =>
        simp [batchLoop, h, hres, runGenerateContent, ih, List.filter, batchItemToasts]
      | error e =>
        simp [batchLoop, h, hres, runGenerateContent, ih, List.filter, batchItemToasts]
    · simp [batchLoop, h, ih, List.filter]

theorem dropLast_append_singleton {α : Type} (l : List α) (a : α) :
    (l ++ [a]).dropLast = l := by
  simp

/-- C5: the poller issues a status request immediately (the first action of
the trace, before any wait), re-polls after a fixed 5000 ms for every observed
status outside the terminal set, and stops (no further polls) for every
observed status in the terminal set, exactly as the `refetchInterval`
callback prescribes. -/
theorem claim5_polling_policy (s : String) (rest : List String) :
    (pollActions (s :: rest)).head? = some PollAction.request ∧
    ((s == "processed" || s == "error") = true →
      refetchInterval (some s) = none ∧
      pollActions (s :: rest) = [PollAction.request]) ∧
    ((s == "processed" || s == "error") = false →
      refetchInterval (some s) = some 5000 ∧
      pollActions (s :: rest) = PollAction.request :: PollAction.wait 5000 :: pollActions rest) := by
  refine ⟨rfl, fun h => ?_, fun h => ?_⟩ <;> simp [refetchInterval, pollActions, h]

/-- Witness for C5 at concrete statuses: a non-terminal status re-polls after
5000 ms and a terminal status stops the poller. -/
theorem claim5_polling_policy_witness :
    refetchInterval (some "processing") = some 5000 ∧
    pollActions ["processing", "processed"] =
      [PollAction.request, PollAction.wait 5000, PollAction.request] ∧
    refetchInterval (some "processed") = none ∧
    pollActions ["processed"] = [PollAction.request] := by
  have h1 := (claim5_polling_policy "processing" ["processed"]).2.2 (by decide)
  have h2 := (claim5_polling_policy "processed" []).2.1 (by decide)
  refine ⟨h1.1, ?_, h2.1, h2.2⟩
  rw [h1.2, h2.2]

/-- C6: whenever the scope is absent or unconfirmed (so that
`scopeData?.is_confirmed` is falsy), invoking `handleGenerateTopics` issues no
remote call and surfaces a rejection error toast, so topic generation (and
transitively content generation) is unreachable while the scope is not
confirmed. -/
theorem claim6_stage_invariant (d : Option String) (st : AnalyzeState)
    (h : scopeConfirmedB st.scopeData = false) :
    (handleGenerateTopics d st).1 = [] ∧
    (handleGenerateTopics d st).2.any isErrorToast = true := by
  by_cases hg : (!(optStrTruthy d) || !(strTruthy st.selectedTemplate)) = true
  · simp [handleGenerateTopics, hg, isErrorToast]
  · simp [handleGenerateTopics, hg, h, isErrorToast]

/-- Witness for C6: with a document and template selected but an unconfirmed
cached scope, topic generation is rejected without a remote call. -/
theorem claim6_stage_invariant_witness :
    (handleGenerateTopics (some "d1")
      { sampleState with scopeData := some { sampleScope with is_confirmed := false } }).1 = [] ∧
    (handleGenerateTopics (some "d1")
      { sampleState with scopeData := some { sampleScope with is_confirmed := false } }).2.any
        isErrorToast = true :=
  claim6_stage_invariant (some "d1")
    { sampleState with scopeData := some { sampleScope with is_confirmed := false } } (by decide)

/-- C7: when a poll reports `processed`, the stage becomes 3 exactly when a
confirmed scope is cached for the document and 2 otherwise, and any cached
scope (confirmed or not) is loaded into `scopeData` while an absent cached
scope leaves `scopeData` untouched. -/
theorem claim7_processed_transition (d : String) (cache : QueryCache) (st : AnalyzeState) :
    (onDocumentStatusEv d cache "processed" st).1.analysisStep =
      expectedStepOnProcessed (getCachedScope cache d) ∧
    (onDocumentStatusEv d cache "processed" st).1.scopeData =
      (getCachedScope cache d).elim st.scopeData some := by
  cases hsc : getCachedScope cache d with
  | none => simp [onDocumentStatusEv, hsc, expectedStepOnProcessed]
  | some sc =>
    by_cases hc : sc.is_confirmed = true
    · simp [onDocumentStatusEv, hsc, hc, expectedStepOnProcessed]
    · simp [onDocumentStatusEv, hsc, hc, expectedStepOnProcessed]

/-- C10: when the chat input is blank after trimming, `handleSendChatMessage`
is a complete no-op: no remote call, no toast, and the state (in particular
the transcript) is unchanged. -/
theorem claim10_blank_chat_noop (d : Option String) (res : Except String String)
    (st : AnalyzeState) (cache : QueryCache)
    (h : strTruthy (trimWs st.currentChatMessage) = false) :
    handleSendChatMessage d res st cache =
      { state := st, cache := cache, calls := [], toasts := [] } := by
  simp [handleSendChatMessage, h]

/-- Witness for C10: a whitespace-only input leaves everything unchanged. -/
theorem claim10_blank_chat_noop_witness :
    handleSendChatMessage (some "d1") (Except.ok "hello")
      { sampleState with currentChatMessage := "   " } sampleCache =
      { state := { sampleState with currentChatMessage := "   " }, cache := sampleCache,
        calls := [], toasts := [] } :=
  claim10_blank_chat_noop (some "d1") (Except.ok "hello")
    { sampleState with currentChatMessage := "   " } sampleCache (by decide)

/-- C3: requesting generation for a topic whose key is in the in-flight set
issues no second remote call, and the in-flight entry is added by `onMutate`
at request start and cleared by `onSettled` at completion, on success and on
error alike. -/
theorem claim3_inflight_dedup (d : String) (res : Except String GenSuccess)
    (st : AnalyzeState) (cache : QueryCache) (topic : Topic)
    (hin : isLoading st.contentLoadingState topic.text = true) :
    (handleGenerateOrViewContent d res st cache topic).calls = [] ∧
    isLoading (generateContentOnMutate topic st).contentLoadingState topic.text = true ∧
    isLoading
      (runGenerateContent d st.selectedTemplate topic res st cache).state.contentLoadingState
      topic.text = false := by
  refine ⟨?_, ?_, ?_⟩
  · cases hc : truthyLookup st.generatedContent topic.text with
    | some content => simp [handleGenerateOrViewContent, hc]
    | none =>
      have hp : generateContentIsPending st = true :=
        isLoading_true_any st.contentLoadingState topic.text hin
      simp [handleGenerateOrViewContent, hc, hp, hin]
  · simp [generateContentOnMutate, isLoading_setFlag_self]
  · cases res with
    | ok data =>
      by_cases hb : st.isBatchGenerating = true <;>
        simp [runGenerateContent, generateContentOnMutate, hb, isLoading_setFlag_self]
    | error e =>
      simp [runGenerateContent, generateContentOnMutate, isLoading_setFlag_self]

/-- Witness for C3 at a concrete in-flight topic. -/
theorem claim3_inflight_dedup_witness :
    (handleGenerateOrViewContent "d1" (Except.error "down")
      { sampleState with contentLoadingState := [("Intro", true)] } sampleCache
      sampleTopicIntro).calls = [] ∧
    isLoading (generateContentOnMutate sampleTopicIntro
      { sampleState with contentLoadingState := [("Intro", true)] }).contentLoadingState
      "Intro" = true ∧
    isLoading
      (runGenerateContent "d1" "tplA" sampleTopicIntro (Except.error "down")
        { sampleState with contentLoadingState := [("Intro", true)] }
        sampleCache).state.contentLoadingState "Intro" = false :=
  claim3_inflight_dedup "d1" (Except.error "down")
    { sampleState with contentLoadingState := [("Intro", true)] } sampleCache
    sampleTopicIntro (by decide)

/-- C4: a nonblank chat send first appends the user turn optimistically,
issues the remote call with the prior transcript (not including the new user
turn) as context, appends the assistant turn on success, and on failure
removes the just-appended user turn so the transcript equals the pre-send
transcript (length unchanged) and an error toast is surfaced. -/
theorem claim4_chat_rollback (d : Option String) (res : Except String String)
    (st : AnalyzeState) (cache : QueryCache)
    (hmsg : strTruthy (trimWs st.currentChatMessage) = true)
    (hd : optStrTruthy d = true)
    (htpl : strTruthy st.selectedTemplate = true) :
    (chatOnMutate st.currentChatMessage st).chatHistory =
      st.chatHistory ++ [{ role := "user", content := st.currentChatMessage }] ∧
    (handleSendChatMessage d res st cache).calls =
      [RemoteCall.chat (d.getD "") st.selectedTemplate st.currentChatMessage st.chatHistory] ∧
    (handleSendChatMessage d res st cache).state.chatHistory =
      chatOutcomeHistory st.chatHistory st.currentChatMessage res ∧
    (exceptIsOk res = false →
      (handleSendChatMessage d res st cache).state.chatHistory.length = st.chatHistory.length ∧
      (handleSendChatMessage d res st cache).toasts.any isErrorToast = true) := by
  have hmap : st.chatHistory.map
      (fun m => ({ role := m.role, content := m.content } : ChatMessage)) = st.chatHistory := by
    simp
  refine ⟨by simp [chatOnMutate], ?_, ?_, ?_⟩
  · cases res with
    | ok resp =>
      simp [handleSendChatMessage, hmsg, hd, htpl, runChatMutation, chatOnMutate, hmap]
    | error e =>
      simp [handleSendChatMessage, hmsg, hd, htpl, runChatMutation, chatOnMutate, hmap]
  · cases res with
    | ok resp =>
      simp [handleSendChatMessage, hmsg, hd, htpl, runChatMutation, chatOnMutate, hmap,
            chatOutcomeHistory]
    | error e =>
      simp [handleSendChatMessage, hmsg, hd, htpl, runChatMutation, chatOnMutate, hmap,
            chatOutcomeHistory, dropLast_append_singleton]
  · intro hres
    cases res with
    | ok resp => simp [exceptIsOk] at hres
    | error e =>
      constructor
      · simp [handleSendChatMessage, hmsg, hd, htpl, runChatMutation, chatOnMutate, hmap,
              dropLast_append_singleton]
      · simp [handleSendChatMessage, hmsg, hd, htpl, runChatMutation, chatOnMutate,
              isErrorToast]

/-- Witness for C4 at a concrete failing send: the transcript rolls back to
the pre-send transcript and an error toast is surfaced. -/
theorem claim4_chat_rollback_witness :
    (chatOnMutate "what is the scope?"
      { sampleState with currentChatMessage := "what is the scope?",
                         chatHistory := [{ role := "user", content := "hi" },
                                         { role := "assistant", content := "hello" }] }).chatHistory =
      [{ role := "user", content := "hi" }, { role := "assistant", content := "hello" }] ++
        [{ role := "user", content := "what is the scope?" }] ∧
    (handleSendChatMessage (some "d1") (Except.error "down")
      { sampleState with currentChatMessage := "what is the scope?",
                         chatHistory := [{ role := "user", content := "hi" },
                                         { role := "assistant", content := "hello" }] }
      sampleCache).calls =
      [RemoteCall.chat "d1" "tplA" "what is the scope?"
        [{ role := "user", content := "hi" }, { role := "assistant", content := "hello" }]] ∧
    (handleSendChatMessage (some "d1") (Except.error "down")
      { sampleState with currentChatMessage := "what is the scope?",
                         chatHistory := [{ role := "user", content := "hi" },
                                         { role := "assistant", content := "hello" }] }
      sampleCache).state.chatHistory =
      chatOutcomeHistory
        [{ role := "user", content := "hi" }, { role := "assistant", content := "hello" }]
        "what is the scope?" (Except.error "down") ∧
    (exceptIsOk (Except.error "down" : Except String String) = false →
      (handleSendChatMessage (some "d1") (Except.error "down")
        { sampleState with currentChatMessage := "what is the scope?",
                           chatHistory := [{ role := "user", content := "hi" },
                                           { role := "assistant", content := "hello" }] }
        sampleCache).state.chatHistory.length =
        ([{ role := "user", content := "hi" },
          { role := "assistant", content := "hello" }] : List ChatMessage).length ∧
      (handleSendChatMessage (some "d1") (Except.error "down")
        { sampleState with currentChatMessage := "what is the scope?",
                           chatHistory := [{ role := "user", content := "hi" },
                                           { role := "assistant", content := "hello" }] }
        sampleCache).toasts.any isErrorToast = true) :=
  claim4_chat_rollback (some "d1") (Except.error "down")
    { sampleState with currentChatMessage := "what is the scope?",
                       chatHistory := [{ role := "user", content := "hi" },
                                       { role := "assistant", content := "hello" }] }
    sampleCache (by decide) (by decide) (by decide)

/-- C8: saving an open draft whose topic has a truthy server id writes the
draft into the local content map and the query cache and issues the remote
save; when the remote save fails, the content map and cache still hold the
draft (no rollback) and an error toast is surfaced. -/
theorem claim8_save_no_rollback (d : Option String) (st : AnalyzeState) (cache : QueryCache)
    (topic : Topic) (e : String)
    (hmodal : st.currentTopicForModal = some topic)
    (hd : optStrTruthy d = true)
    (hid : optNatTruthy topic.id = true) :
    (handleSaveModalContent d (Except.error e) st cache).calls =
      [RemoteCall.saveContent (d.getD "") (topic.id.getD 0) st.modalContent] ∧
    lookupStr (handleSaveModalContent d (Except.error e) st cache).state.generatedContent
      topic.text = some st.modalContent ∧
    getCachedContent (handleSaveModalContent d (Except.error e) st cache).cache (d.getD "")
      st.selectedTemplate topic.text = some st.modalContent ∧
    (handleSaveModalContent d (Except.error e) st cache).toasts.any isErrorToast = true := by
  simp [handleSaveModalContent, hmodal, hd, hid, runSaveContent, lookupStr_setStr_self,
        getCachedContent_setCachedContent_self, isErrorToast]

/-- Witness for C8 at a concrete failing save. -/
theorem claim8_save_no_rollback_witness :
    (handleSaveModalContent (some "d1") (Except.error "down")
      { sampleState with currentTopicForModal := some sampleTopicIntro,
                         modalContent := "edited draft" } sampleCache).calls =
      [RemoteCall.saveContent "d1" 1 "edited draft"] ∧
    lookupStr (handleSaveModalContent (some "d1") (Except.error "down")
      { sampleState with currentTopicForModal := some sampleTopicIntro,
                         modalContent := "edited draft" } sampleCache).state.generatedContent
      "Intro" = some "edited draft" ∧
    getCachedContent (handleSaveModalContent (some "d1") (Except.error "down")
      { sampleState with currentTopicForModal := some sampleTopicIntro,
                         modalContent := "edited draft" } sampleCache).cache "d1"
      "tplA" "Intro" = some "edited draft" ∧
    (handleSaveModalContent (some "d1") (Except.error "down")
      { sampleState with currentTopicForModal := some sampleTopicIntro,
                         modalContent := "edited draft" } sampleCache).toasts.any
      isErrorToast = true :=
  claim8_save_no_rollback (some "d1")
    { sampleState with currentTopicForModal := some sampleTopicIntro,
                       modalContent := "edited draft" } sampleCache sampleTopicIntro "down"
    (by decide) (by decide) (by decide)

/-- C9: saving an open draft whose topic lacks a server id commits the draft
to the local content map and the query cache, issues no remote call, and is
reported with the informational cache-only toast rather than an error. -/
theorem claim9_cache_only_save (d : Option String) (res : Except String Unit)
    (st : AnalyzeState) (cache : QueryCache) (topic : Topic)
    (hmodal : st.currentTopicForModal = some topic)
    (hd : optStrTruthy d = true)
    (hid : topic.id = none) :
    (handleSaveModalContent d res st cache).calls = [] ∧
    lookupStr (handleSaveModalContent d res st cache).state.generatedContent topic.text =
      some st.modalContent ∧
    getCachedContent (handleSaveModalContent d res st cache).cache (d.getD "")
      st.selectedTemplate topic.text = some st.modalContent ∧
    (handleSaveModalContent d res st cache).toasts =
      [Toast.info "Content saved locally. Topic ID missing for backend save."] := by
  simp [handleSaveModalContent, hmodal, hd, hid, optNatTruthy, lookupStr_setStr_self,
        getCachedContent_setCachedContent_self]

/-- Witness for C9 at a concrete id-less topic. -/
theorem claim9_cache_only_save_witness :
    (handleSaveModalContent (some "d1") (Except.ok ())
      { sampleState with currentTopicForModal := some sampleTopicScope,
                         modalContent := "scope draft" } sampleCache).calls = [] ∧
    lookupStr (handleSaveModalContent (some "d1") (Except.ok ())
      { sampleState with currentTopicForModal := some sampleTopicScope,
                         modalContent := "scope draft" } sampleCache).state.generatedContent
      "Scope" = some "scope draft" ∧
    getCachedContent (handleSaveModalContent (some "d1") (Except.ok ())
      { sampleState with currentTopicForModal := some sampleTopicScope,
                         modalContent := "scope draft" } sampleCache).cache "d1"
      "tplA" "Scope" = some "scope draft" ∧
    (handleSaveModalContent (some "d1") (Except.ok ())
      { sampleState with currentTopicForModal := some sampleTopicScope,
                         modalContent := "scope draft" } sampleCache).toasts =
      [Toast.info "Content saved locally. Topic ID missing for backend save."] :=
  claim9_cache_only_save (some "d1") (Except.ok ())
    { sampleState with currentTopicForModal := some sampleTopicScope,
                       modalContent := "scope draft" } sampleCache sampleTopicScope
    (by decide) (by decide) (by decide)

/-- C2 (amended): with no topic in flight, `handleGenerateAllContent` issues
exactly one generation call per topic without truthy cached content, in topic
order (hence exactly N minus K calls when K topics already have cached
content), the set of calls does not depend on the per-topic results (a
failure on one topic does not prevent the calls for the remaining topics),
each failed topic is surfaced with its own batch error toast, and the count
the completion toast reports is the number of successful generations. -/
theorem claim2_batch_generation (d : String) (results : String → Except String GenSuccess)
    (st : AnalyzeState) (cache : QueryCache) (t : Topic) (e : String)
    (hnofl : st.contentLoadingState = [])
    (ht : t ∈ st.generatedTopics)
    (htc : truthyLookup st.generatedContent t.text = none)
    (hte : results t.text = Except.error e) :
    (handleGenerateAllContent d results st cache).calls =
      (st.generatedTopics.filter
        (fun u => !(truthyLookup st.generatedContent u.text).isSome)).map
        (fun u => RemoteCall.generateContent d st.selectedTemplate u.text) ∧
    (handleGenerateAllContent d results st cache).calls.length =
      st.generatedTopics.length -
        (st.generatedTopics.filter
          (fun u => (truthyLookup st.generatedContent u.text).isSome)).length ∧
    (handleGenerateAllContent d results st cache).count =
      ((st.generatedTopics.filter
        (fun u => !(truthyLookup st.generatedContent u.text).isSome)).filter
        (fun u => exceptIsOk (results u.text))).length ∧
    Toast.error ("Failed to generate content for " ++ t.text ++ " during batch operation.")
      ∈ (handleGenerateAllContent d results st cache).toasts := by
  have hie : st.generatedTopics.isEmpty = false := by
    cases hgen : st.generatedTopics with
    | nil => exact absurd hgen (List.ne_nil_of_mem ht)
    | cons a l => rfl
  have hbe : ∀ u ∈ st.generatedTopics,
      batchEligible st.generatedContent st.contentLoadingState u =
        !(truthyLookup st.generatedContent u.text).isSome := by
    intro u _
    simp [batchEligible, hnofl, isLoading, List.find?]
  have hfe : st.generatedTopics.filter
      (batchEligible st.generatedContent st.contentLoadingState) =
      st.generatedTopics.filter (fun u => !(truthyLookup st.generatedContent u.text).isSome) :=
    List.filter_congr hbe
  have hcalls : (handleGenerateAllContent d results st cache).calls =
      (st.generatedTopics.filter
        (fun u => !(truthyLookup st.generatedContent u.text).isSome)).map
        (fun u => RemoteCall.generateContent d st.selectedTemplate u.text) := by
    simp only [handleGenerateAllContent, hie, Bool.false_eq_true, if_false]
    rw [batchLoop_calls]
    simp [hfe]
  refine ⟨hcalls, ?_, ?_, ?_⟩
  · rw [hcalls]
    have hadd := length_filter_not_add
      (fun u => (truthyLookup st.generatedContent u.text).isSome) st.generatedTopics
    simp only [List.length_map]
    omega
  · simp only [handleGenerateAllContent, hie, Bool.false_eq_true, if_false]
    rw [batchLoop_count]
    simp [hfe]
  · simp only [handleGenerateAllContent, hie, Bool.false_eq_true, if_false]
    rw [batchLoop_toasts]
    have hmem : t ∈ st.generatedTopics.filter
        (batchEligible st.generatedContent st.contentLoadingState) := by
      rw [hfe]
      exact List.mem_filter.mpr ⟨ht, by simp [htc]⟩
    have hit : Toast.error ("Failed to generate content for " ++ t.text ++
        " during batch operation.") ∈ batchItemToasts results t := by
      simp [batchItemToasts, hte]
    simp only [List.mem_append, List.mem_flatMap]
    exact Or.inl (Or.inr ⟨t, hmem, hit⟩)

/-- Counterexample for C2 as stated: with three uncached topics of which
exactly one (text `Intro`) fails generation, the count reported by the
completion toast is 2 (the successes), not the accumulated number of
failures, which is 1. -/
theorem claim2_batch_generation_counterexample :
    ¬((handleGenerateAllContent "d1" sampleResults
        { sampleState with
            generatedTopics := [sampleTopicIntro, sampleTopicScope, sampleTopicPlan] }
        sampleCache).count =
      (([sampleTopicIntro, sampleTopicScope, sampleTopicPlan] : List Topic).filter
        (fun u => !(exceptIsOk (sampleResults u.text)))).length) := by
  decide

/-- Witness for the amended C2 at a concrete batch: three uncached topics,
one failing, yield three calls in topic order, a success count of 2, and the
batch error toast for the failing topic. -/
theorem claim2_batch_generation_witness :
    (handleGenerateAllContent "d1" sampleResults
      { sampleState with
          generatedTopics := [sampleTopicIntro, sampleTopicScope, sampleTopicPlan] }
      sampleCache).calls =
      [RemoteCall.generateContent "d1" "tplA" "Intro",
       RemoteCall.generateContent "d1" "tplA" "Scope",
       RemoteCall.generateContent "d1" "tplA" "Plan"] ∧
    (handleGenerateAllContent "d1" sampleResults
      { sampleState with
          generatedTopics := [sampleTopicIntro, sampleTopicScope, sampleTopicPlan] }
      sampleCache).calls.length = 3 ∧
    (handleGenerateAllContent "d1" sampleResults
      { sampleState with
          generatedTopics := [sampleTopicIntro, sampleTopicScope, sampleTopicPlan] }
      sampleCache).count = 2 ∧
    Toast.error "Failed to generate content for Intro during batch operation."
      ∈ (handleGenerateAllContent "d1" sampleResults
        { sampleState with
            generatedTopics := [sampleTopicIntro, sampleTopicScope, sampleTopicPlan] }
        sampleCache).toasts :=
  claim2_batch_generation "d1" sampleResults
    { sampleState with
        generatedTopics := [sampleTopicIntro, sampleTopicScope, sampleTopicPlan] }
    sampleCache sampleTopicIntro "boom" rfl (by decide) (by decide)
    (by simp [sampleResults, sampleTopicIntro])

/-- Counterexample for C1 as stated: at a document whose confirmed scope,
topic sequence and content map are all cached (so the resume does reach the
content-ready stage 4), the re-entry trace still violates the cache-before-
network ordering, because the reset effect unconditionally invalidates and
refetches the document status before the scope and topic cache checks run. -/
theorem claim1_idempotent_resume_counterexample :
    (resumeWorkflow "d1" sampleCache "processed" sampleState).1.analysisStep = 4 ∧
    cacheChecksPrecedeRequests (resumeWorkflow "d1" sampleCache "processed" sampleState).2 =
      false := by
  decide

/-- C1 (amended): re-entering the workflow for a document whose confirmed
scope and generated topic sequence are cached skips directly to the
content-ready stage (step 4, with the cached topics and scope restored)
without issuing any extract-scope, confirm-scope or generate-topics remote
call — the only remote call of the re-entry is the document-status request,
which is issued before the cache checks rather than after them. -/
theorem claim1_idempotent_resume (d tpl : String) (cache : QueryCache) (st0 : AnalyzeState)
    (sc : ScopeData) (ts : List Topic)
    (hd : strTruthy d = true)
    (htpl : st0.selectedTemplate = tpl)
    (htplT : strTruthy tpl = true)
    (hsc : getCachedScope cache d = some sc)
    (hconf : sc.is_confirmed = true)
    (hts : getCachedTopics cache d tpl = some ts) :
    (resumeWorkflow d cache "processed" st0).1.analysisStep = 4 ∧
    (resumeWorkflow d cache "processed" st0).1.generatedTopics = ts ∧
    (resumeWorkflow d cache "processed" st0).1.scopeData = some sc ∧
    remoteCallsOf (resumeWorkflow d cache "processed" st0).2 = [RemoteCall.getStatus d] := by
  have hguard : strTruthy d && strTruthy tpl && true && scopeConfirmedB (some sc) = true := by
    simp [hd, htplT, scopeConfirmedB, hconf]
  refine ⟨?_, ?_, ?_, ?_⟩ <;>
    simp [resumeWorkflow, resetForDocEffect, onDocumentStatusEv, hsc, hconf,
          hydrateFromCache, htpl, htplT, hd, hts, scopeConfirmedB, remoteCallsOf,
          List.filterMap_append, remoteCallsOf_map_cacheCheck]

/-- Witness for the amended C1 at the sample cache: resume restores the two
cached topics at stage 4 and the only remote call is the status request. -/
theorem claim1_idempotent_resume_witness :
    (resumeWorkflow "d1" sampleCache "processed" sampleState).1.analysisStep = 4 ∧
    (resumeWorkflow "d1" sampleCache "processed" sampleState).1.generatedTopics =
      [sampleTopicIntro, sampleTopicScope] ∧
    (resumeWorkflow "d1" sampleCache "processed" sampleState).1.scopeData = some sampleScope ∧
    remoteCallsOf (resumeWorkflow "d1" sampleCache "processed" sampleState).2 =
      [RemoteCall.getStatus "d1"] :=
  claim1_idempotent_resume "d1" "tplA" sampleCache sampleState sampleScope
    [sampleTopicIntro, sampleTopicScope] (by decide) rfl (by decide) (by decide) (by decide)
    (by decide)
